import Mathlib

/-!
Shallow embedding of the ClasSync curriculum-scan server's extraction-quality
engine (src/server.js together with the static catalog in
src/curriculum-reference.js).

Machine integers of the source are modelled as Lean Int (the JS numbers in
play are small integers produced by parseInt with fallback 0); strings are
Lean String; JS arrays are Lean List.
-/

/-- One catalog entry of src/curriculum-reference.js (the value stored under a
subject-code key): name, lecture/lab/total units and the year/semester slot. -/
structure RefEntry where
  name : String
  lecUnits : Int
  labUnits : Int
  units : Int
  yearLevel : String
  semester : String
deriving DecidableEq, Repr

/-- One recognized/hydrated subject row as the server handles it (the cleaned
object of src/server.js lines 723-731 and the hydrated object of lines
312-320). -/
structure Subject where
  subjectCode : String
  subjectName : String
  lecUnits : Int
  labUnits : Int
  units : Int
  yearLevel : String
  semester : String
deriving DecidableEq, Repr

/-- CURRICULUM_REFERENCE of src/curriculum-reference.js, in the source's key
insertion order (JS object iteration order for these non-numeric string
keys). -/
def CURRICULUM_REFERENCE : List (String × RefEntry) := [
  ("CS 101", ⟨"Introduction to Computing", 3, 0, 3, "1st Year", "1st Semester"⟩),
  ("CS 102", ⟨"Computer Programming 1 (Fundamentals of Programming)", 2, 1, 3, "1st Year", "1st Semester"⟩),
  ("Math 101", ⟨"Mathematical Analysis 1", 5, 0, 5, "1st Year", "1st Semester"⟩),
  ("Phys 1", ⟨"Physics for Computing", 3, 0, 3, "1st Year", "1st Semester"⟩),
  ("GEC 11", ⟨"Understanding the Self", 3, 0, 3, "1st Year", "1st Semester"⟩),
  ("PATHFIT 1", ⟨"Movement Competency Training", 2, 0, 2, "1st Year", "1st Semester"⟩),
  ("NSTP 11", ⟨"LTS/CWTS/ROTC", 3, 0, 3, "1st Year", "1st Semester"⟩),
  ("CS 103", ⟨"Computer Programming 2 (Intermediate Programming)", 2, 1, 3, "1st Year", "2nd Semester"⟩),
  ("CS 107", ⟨"Digital System Design", 2, 1, 3, "1st Year", "2nd Semester"⟩),
  ("Math 102", ⟨"Mathematical Analysis 2", 5, 0, 5, "1st Year", "2nd Semester"⟩),
  ("GEC 12", ⟨"Readings in the Philippine History", 3, 0, 3, "1st Year", "2nd Semester"⟩),
  ("GEC 13", ⟨"The Contemporary World", 3, 0, 3, "1st Year", "2nd Semester"⟩),
  ("PATHFIT 2", ⟨"Exercise-based Fitness Activities", 2, 0, 2, "1st Year", "2nd Semester"⟩),
  ("NSTP 2", ⟨"LTS/CWTS/ROTC", 3, 0, 3, "1st Year", "2nd Semester"⟩),
  ("CS 104", ⟨"Data Structure and Algorithm", 2, 1, 3, "2nd Year", "1st Semester"⟩),
  ("CS 106", ⟨"Application Development and Emerging Technologies", 2, 1, 3, "2nd Year", "1st Semester"⟩),
  ("CS 108", ⟨"Object-oriented Programming", 2, 1, 3, "2nd Year", "1st Semester"⟩),
  ("CS 109", ⟨"Discrete Structures 1", 3, 0, 3, "2nd Year", "1st Semester"⟩),
  ("Math Elec 101", ⟨"Linear Algebra", 3, 0, 3, "2nd Year", "1st Semester"⟩),
  ("GEC 14", ⟨"Mathematics in the Modern World", 3, 0, 3, "2nd Year", "1st Semester"⟩),
  ("PATHFIT 3", ⟨"Menu of Dance, Sports, Martial Arts, Group Exercises and Outdoor Adventure Activities", 2, 0, 2, "2nd Year", "1st Semester"⟩),
  ("CS 105", ⟨"Information Management", 2, 1, 3, "2nd Year", "2nd Semester"⟩),
  ("CS 110", ⟨"Discrete Structures 2", 3, 0, 3, "2nd Year", "2nd Semester"⟩),
  ("CS 111", ⟨"Design and Analysis of Algorithms", 3, 0, 3, "2nd Year", "2nd Semester"⟩),
  ("CS 112", ⟨"Programming Languages", 2, 1, 3, "2nd Year", "2nd Semester"⟩),
  ("CS 113", ⟨"Special Topics In Computing", 1, 0, 1, "2nd Year", "2nd Semester"⟩),
  ("Math Elec 102", ⟨"Differential Equations", 3, 0, 3, "2nd Year", "2nd Semester"⟩),
  ("GEC 15", ⟨"Purposive Communication", 3, 0, 3, "2nd Year", "2nd Semester"⟩),
  ("PATHFIT 4", ⟨"Menu of Dance, Sports, Martial Arts, Group Exercises and Outdoor Adventure Activities", 2, 0, 2, "2nd Year", "2nd Semester"⟩),
  ("CS 114", ⟨"Operating Systems", 2, 1, 3, "3rd Year", "1st Semester"⟩),
  ("CS 115", ⟨"Computer Architecture and Organization", 3, 0, 3, "3rd Year", "1st Semester"⟩),
  ("CS 116", ⟨"Automata Theory and Formal Languages", 3, 0, 3, "3rd Year", "1st Semester"⟩),
  ("CS 117", ⟨"Software Engineering 1", 2, 1, 3, "3rd Year", "1st Semester"⟩),
  ("CS Elec 1", ⟨"CS Elective 1", 3, 0, 3, "3rd Year", "1st Semester"⟩),
  ("GEC 16", ⟨"Art Appreciation", 3, 0, 3, "3rd Year", "1st Semester"⟩),
  ("CS 118", ⟨"Software Engineering 2", 2, 1, 3, "3rd Year", "2nd Semester"⟩),
  ("CS 119", ⟨"Networks and Communications", 2, 1, 3, "3rd Year", "2nd Semester"⟩),
  ("CS 120", ⟨"Human Computer Interaction", 1, 0, 1, "3rd Year", "2nd Semester"⟩),
  ("CS 121", ⟨"Information Assurance and Security", 2, 0, 2, "3rd Year", "2nd Semester"⟩),
  ("CS Elec 2", ⟨"CS Elective 2", 2, 1, 3, "3rd Year", "2nd Semester"⟩),
  ("GEC 17", ⟨"Science, Technology and Society", 3, 0, 3, "3rd Year", "2nd Semester"⟩),
  ("GEC 18", ⟨"Ethics", 3, 0, 3, "3rd Year", "2nd Semester"⟩),
  ("CS 122", ⟨"Practicum (240 hours)", 3, 0, 3, "3rd Year", "Summer"⟩),
  ("CS 123", ⟨"Numerical Analysis", 3, 0, 3, "4th Year", "1st Semester"⟩),
  ("CS 124", ⟨"CS Thesis 1", 2, 1, 3, "4th Year", "1st Semester"⟩),
  ("CS Elec 3", ⟨"CS Elective 3", 3, 0, 3, "4th Year", "1st Semester"⟩),
  ("GEC 20", ⟨"The Entrepreneurial Mind", 3, 0, 3, "4th Year", "1st Semester"⟩),
  ("GEC Elec 1", ⟨"Environmental Science", 3, 0, 3, "4th Year", "1st Semester"⟩),
  ("GEC Elec 22", ⟨"Great Books", 3, 0, 3, "4th Year", "1st Semester"⟩),
  ("CS 125", ⟨"CS Thesis 2", 3, 0, 3, "4th Year", "2nd Semester"⟩),
  ("CS 126", ⟨"Social Issues and Professional Practice", 3, 0, 3, "4th Year", "2nd Semester"⟩),
  ("GEC 19", ⟨"Life and Works of Rizal", 3, 0, 3, "4th Year", "2nd Semester"⟩),
  ("GEC Elec 2", ⟨"Living in the IT Era", 3, 0, 3, "4th Year", "2nd Semester"⟩),
  ("GEC Elec 21", ⟨"Human Reproduction", 3, 0, 3, "4th Year", "2nd Semester"⟩)]

/-- The hydration normalization of src/server.js lines 298 and 306:
uppercase, then remove every whitespace character (the /\s+/g regex). -/
def normalizeUpper (s : String) : String :=
  String.mk ((s.data.map Char.toUpper).filter (fun c => !c.isWhitespace))

/-- Model of JS String.prototype.trim (src/server.js line 303): drop leading
and trailing whitespace. -/
def jsTrim (s : String) : String :=
  String.mk (((s.data.dropWhile Char.isWhitespace).reverse.dropWhile Char.isWhitespace).reverse)

/-- The refLookup index of src/server.js lines 295-300: normalized key to
(original key, entry).  The JS object is filled in key order with overwrite,
so a lookup returns the LAST entry whose normalized key matches; find? over
the reversed list models that. -/
def refLookup (normalized : String) : Option (String × RefEntry) :=
  CURRICULUM_REFERENCE.reverse.find? (fun kv => normalizeUpper kv.1 == normalized)

/-- hydrateSubjectsFromReference, src/server.js lines 293-326. -/
def hydrateSubjectsFromReference (subjects : List Subject) : List Subject :=
  subjects.map (fun subject =>
    let code := jsTrim subject.subjectCode
    let normalizedCode := normalizeUpper code
    match refLookup normalizedCode with
    | some kv =>
        { subjectCode := kv.1
          subjectName := kv.2.name
          lecUnits := kv.2.lecUnits
          labUnits := kv.2.labUnits
          units := kv.2.units
          yearLevel := kv.2.yearLevel
          semester := kv.2.semester }
    | none => subject)

/-- The per-image validation record of src/server.js lines 127-133 (the
missingCourses array is part of the same object). -/
structure Validation where
  isGood : Bool
  issues : List String
  warnings : List String
  subjectCount : Nat
  missingCourses : List String
deriving DecidableEq, Repr

/-- expectedCounts of src/server.js lines 136-139: per-image cardinality
range and description; lookup of any other image number is undefined. -/
def expectedCounts (imageNumber : Nat) : Option (Nat × Nat × String) :=
  if imageNumber = 1 then some (27, 31, "1st & 2nd Year")
  else if imageNumber = 2 then some (23, 27, "3rd Year + Summer + 4th Year")
  else none

/-- The byYear frequency map of src/server.js lines 158-161 and 214-217,
represented as the count function: byYear[year] is countByYear subjects year
(absent key = 0). -/
def countByYear (subjects : List Subject) (year : String) : Nat :=
  (subjects.filter (fun s => s.yearLevel == year)).length

/-- validateExtractionQuality, src/server.js lines 126-199, translated as a
chain of updates to the validation record in source push/assignment order.
The final record update is line 196: isGood is recomputed from issues,
overriding the tentative value set at line 153. -/
def validateExtractionQuality (subjects : List Subject) (imageNumber : Nat) : Validation :=
  let v0 : Validation :=
    { isGood := false, issues := [], warnings := [], subjectCount := subjects.length,
      missingCourses := [] }
  -- lines 141-155: expected-count range check
  let v1 :=
    match expectedCounts imageNumber with
    | some (mn, mx, desc) =>
        if subjects.length < mn then
          { v0 with issues := v0.issues ++
              ["Only " ++ toString subjects.length ++ " subjects found (expected " ++
               toString mn ++ "-" ++ toString mx ++ " for " ++ desc ++ ")"] }
        else if mx < subjects.length then
          { v0 with warnings := v0.warnings ++
              ["Found " ++ toString subjects.length ++ " subjects (expected " ++
               toString mn ++ "-" ++ toString mx ++ "). May have duplicates."] }
        else { v0 with isGood := true }
    | none => v0
  -- lines 164-171: image 1 year-distribution checks
  -- (the JS guard !byYear[y] || byYear[y] < k is: count zero/absent, or below k)
  let v2 :=
    if imageNumber = 1 then
      let c1 := countByYear subjects "1st Year"
      let va :=
        if c1 = 0 ∨ c1 < 12 then
          { v1 with issues := v1.issues ++ ["1st Year incomplete or missing"] }
        else v1
      let c2 := countByYear subjects "2nd Year"
      if c2 = 0 ∨ c2 < 13 then
        { va with issues := va.issues ++ ["2nd Year incomplete or missing"] }
      else va
    else v1
  -- lines 173-194: image 2 year-distribution and Summer (CS 122) checks
  let v3 :=
    if imageNumber = 2 then
      let c3 := countByYear subjects "3rd Year"
      let va :=
        if c3 = 0 ∨ c3 < 11 then
          { v2 with issues := v2.issues ++ ["3rd Year incomplete or missing"] }
        else v2
      let c4 := countByYear subjects "4th Year"
      let vb :=
        if c4 = 0 ∨ c4 < 9 then
          { va with issues := va.issues ++ ["4th Year incomplete or missing"] }
        else va
      let hasSummer := subjects.any (fun s => s.subjectCode == "CS 122")
      if !hasSummer then
        { vb with issues := vb.issues ++ ["Summer semester missing (CS 122 - Practicum)"],
                  missingCourses := vb.missingCourses ++ ["CS 122"] }
      else
        match subjects.find? (fun s => s.subjectCode == "CS 122") with
        | some cs122 =>
            if cs122.semester ≠ "Summer" then
              { vb with warnings := vb.warnings ++
                  ["CS 122 in wrong semester (" ++ cs122.semester ++ "), should be Summer"] }
            else vb
        | none => vb
    else v2
  -- line 196: isGood is authoritative, recomputed from issues
  { v3 with isGood := v3.issues.length == 0 }

/-- The overall validation record of src/server.js lines 203-211.  The byYear
map of the source object is the derived frequency count (countByYear of the
deduplicated list) and is represented by that function rather than stored. -/
structure OverallValidation where
  success : Bool
  quality : String
  totalCount : Nat
  issues : List String
  warnings : List String
  missingCourses : List String
deriving DecidableEq, Repr

/-- One entry of the imageResults array (src/server.js lines 689-695) as far
as the validation engine reads it: the validation field is null until (and
unless) line 745 assigns it.  originalFile and the image-quality signal are
external metadata the engine never reads and are not modelled. -/
structure ImageResult where
  imageNumber : Nat
  subjects : List Subject
  validation : Option Validation
deriving DecidableEq, Repr

/-- imageResults[i]?.validation?.isGood || false, src/server.js lines 220-221. -/
def imageGood (imageResults : List ImageResult) (i : Nat) : Bool :=
  match imageResults.get? i with
  | some r =>
      match r.validation with
      | some v => v.isGood
      | none => false
  | none => false

/-- The boolean the spec calls "this image individually passed its per-unit
validation" for one imageResults entry (validation present and isGood). -/
def imageResultGood (r : ImageResult) : Bool :=
  match r.validation with
  | some v => v.isGood
  | none => false

/-- expectedYears of src/server.js line 267. -/
def expectedYears : List String := ["1st Year", "2nd Year", "3rd Year", "4th Year"]

/-- The tier block of validateOverallExtraction, src/server.js lines 225-263:
quality, success, and the one issue or warning the chosen branch pushes
(as (quality, success, issues, warnings)). -/
def overallTier (count : Nat) (imageResults : List ImageResult) :
    String × Bool × List String × List String :=
  let image1Good := imageGood imageResults 0
  let image2Good := imageGood imageResults 1
  let bothImagesGood := image1Good && image2Good
  if 54 ≤ count then ("excellent", true, [], [])
  else if 50 ≤ count then
    ("good", true, [], [toString (54 - count) ++ " subjects missing"])
  else if 45 ≤ count then
    if bothImagesGood || (imageResults.length == 1 && image1Good) then
      ("moderate", true, [],
       ["Only " ++ toString count ++ "/54 subjects total, but image quality is good"])
    else
      ("moderate", false, ["Only " ++ toString count ++ "/54 subjects extracted"], [])
  else
    if imageResults.length == 1 && (image1Good || image2Good) then
      ("moderate", true, [],
       ["Partial scan: " ++ toString count ++ " subjects extracted from 1 image"])
    else
      ("poor", false, ["Very poor extraction: only " ++ toString count ++ "/54 subjects"], [])

/-- The year-completeness issues of src/server.js lines 266-273, pushed only
for two-image submissions (the JS guard !byYear[year] || byYear[year] === 0
is: count zero or key absent). -/
def overallYearIssues (allSubjects : List Subject)
    (imageResults : List ImageResult) : List String :=
  if imageResults.length == 2 then
    (expectedYears.filter (fun y => countByYear allSubjects y == 0)).map
      (fun y => y ++ " completely missing")
  else []

/-- The Summer anchor issue of src/server.js lines 276-280, pushed only for
two-image submissions with no entity whose code is exactly "CS 122". -/
def overallSummerIssues (allSubjects : List Subject)
    (imageResults : List ImageResult) : List String :=
  let hasSummer := allSubjects.any (fun s => s.subjectCode == "CS 122")
  if !hasSummer && imageResults.length == 2 then ["Summer semester missing (CS 122)"]
  else []

/-- validateOverallExtraction, src/server.js lines 202-290.  Each push to
issues/warnings of the source appears, in source order, as a conditional
singleton list inside the blocks above; the record assembles them in that
order.  The missingCourses value assembled before the end (the Summer
partial push of line 279) is overwritten by the unconditional catalog diff
of lines 283-287, exactly as in the source. -/
def validateOverallExtraction (allSubjects : List Subject)
    (imageResults : List ImageResult) : OverallValidation :=
  let count := allSubjects.length
  let tier := overallTier count imageResults
  let yearIssues := overallYearIssues allSubjects imageResults
  let summerIssues := overallSummerIssues allSubjects imageResults
  let hasSummer := allSubjects.any (fun s => s.subjectCode == "CS 122")
  let summerMissingPartial :=
    if !hasSummer && imageResults.length == 2 then ["CS 122"] else []
  let v : OverallValidation :=
    { success := tier.2.1, quality := tier.1, totalCount := count,
      issues := tier.2.2.1 ++ yearIssues ++ summerIssues,
      warnings := tier.2.2.2,
      missingCourses := summerMissingPartial }
  -- lines 283-287: the unconditional exact-code diff against the catalog,
  -- assigned last, replacing the partial value above
  let extractedCodes := allSubjects.map (fun s => s.subjectCode)
  let missingCourses :=
    (CURRICULUM_REFERENCE.map (fun kv => kv.1)).filter
      (fun code => !(extractedCodes.contains code))
  { v with missingCourses := missingCourses }

/-- The deduplication key of src/server.js line 779: lowercase, remove every
whitespace character. -/
def dedupKey (s : String) : String :=
  String.mk ((s.data.map Char.toLower).filter (fun c => !c.isWhitespace))

/-- The seen-set filter of src/server.js lines 777-783 as a recursion carrying
the set of already-seen keys. -/
def dedupLoop (seen : List String) : List Subject → List Subject
  | [] => []
  | s :: rest =>
      let key := dedupKey s.subjectCode
      if seen.contains key then dedupLoop seen rest
      else s :: dedupLoop (key :: seen) rest

/-- uniqueSubjects, src/server.js lines 776-783: first occurrence of each
dedup key wins, on the flattened all-images list. -/
def uniqueSubjects (allSubjects : List Subject) : List Subject :=
  dedupLoop [] allSubjects

/-- One subject object as parsed from the recognizer's JSON, before the
defaulting of src/server.js lines 723-731: any field may be missing (or, for
the numeric fields, fail parseInt), which is modelled as none. -/
structure RawSubject where
  subjectCode : Option String
  subjectName : Option String
  lecUnits : Option Int
  labUnits : Option Int
  units : Option Int
  yearLevel : Option String
  semester : Option String
deriving DecidableEq, Repr

/-- The JS x || d defaulting for string fields: missing and the empty string
are both falsy and fall back to the default. -/
def jsOrString (v : Option String) (d : String) : String :=
  match v with
  | some s => if s = "" then d else s
  | none => d

/-- The cleaning of one recognized subject, src/server.js lines 723-731
(idx is the 0-based position inside the one image's subjects array;
parseInt(x) || 0 is modelled by the Option Int defaulting to 0). -/
def cleanSubject (idx : Nat) (s : RawSubject) : Subject :=
  { subjectCode := jsOrString s.subjectCode ("UNKNOWN_" ++ toString (idx + 1))
    subjectName := jsOrString s.subjectName ""
    lecUnits := s.lecUnits.getD 0
    labUnits := s.labUnits.getD 0
    units := s.units.getD 0
    yearLevel := jsOrString s.yearLevel "Unknown"
    semester := jsOrString s.semester "Unknown" }

/-- parsed.subjects.map of src/server.js line 723. -/
def cleanSubjects (raw : List RawSubject) : List Subject :=
  raw.enum.map (fun p => cleanSubject p.1 p.2)

/-- What processing one image through the external recognizer can yield, as
the orchestrator of src/server.js lines 697-771 branches on it:
a thrown error (transport failure, or the could-not-parse error of
sendToGroq, line 574), a parsed response without a subjects array
(line 722's guard is false), or a parsed subjects array. -/
inductive RecognizerOutcome where
  | failure (msg : String)
  | parsedNoSubjects
  | parsedSubjects (raw : List RawSubject)
deriving DecidableEq, Repr

/-- The per-image body of the orchestrator loop, src/server.js lines 689-771,
for the image at 0-based position i: on success the subjects are cleaned,
hydrated and validated with imageNumber i+1; a parsed response without a
subjects array leaves subjects empty and validation null; a thrown error is
recorded as the failure validation of lines 765-770 with zero subjects. -/
def processImage (i : Nat) (outcome : RecognizerOutcome) : ImageResult :=
  match outcome with
  | RecognizerOutcome.failure msg =>
      { imageNumber := i + 1, subjects := [],
        validation := some
          { isGood := false, issues := [msg], warnings := [], subjectCount := 0,
            missingCourses := [] } }
  | RecognizerOutcome.parsedNoSubjects =>
      { imageNumber := i + 1, subjects := [], validation := none }
  | RecognizerOutcome.parsedSubjects raw =>
      let hydrated := hydrateSubjectsFromReference (cleanSubjects raw)
      { imageNumber := i + 1, subjects := hydrated,
        validation := some (validateExtractionQuality hydrated (i + 1)) }

/-- The response payload assembled at src/server.js lines 860-876, reduced to
the fields the engine computes. -/
structure ScanResponse where
  success : Bool
  quality : String
  subjects : List Subject
  totalSubjectsFound : Nat
  validation : OverallValidation
  imageResults : List ImageResult
  image1Good : Bool
  image2Good : Bool
deriving DecidableEq, Repr

/-- The curriculum-scan orchestrator after upload/credential guards,
src/server.js lines 673-876: process every image in order, concatenate the
per-image hydrated subject lists, deduplicate, classify overall, and build
the response. -/
def scanCurriculum (outcomes : List RecognizerOutcome) : ScanResponse :=
  let imageResults := outcomes.enum.map (fun p => processImage p.1 p.2)
  let allSubjects := (imageResults.map (fun r => r.subjects)).flatten
  let uniques := uniqueSubjects allSubjects
  let overallValidation := validateOverallExtraction uniques imageResults
  { success := overallValidation.success
    quality := overallValidation.quality
    subjects := uniques
    totalSubjectsFound := uniques.length
    validation := overallValidation
    imageResults := imageResults
    image1Good := imageGood imageResults 0
    image2Good := imageGood imageResults 1 }

/-- One uploaded file as the multer filter sees it (src/server.js line 34). -/
structure UploadedFile where
  mimetype : String
deriving DecidableEq, Repr

/-- The allowed list of the multer fileFilter, src/server.js line 35. -/
def allowedMimeTypes : List String := ["image/jpeg", "image/png", "image/webp"]

/-- The multer fileFilter predicate of src/server.js lines 34-41. -/
def fileFilterAccepts (f : UploadedFile) : Bool :=
  allowedMimeTypes.contains f.mimetype

/-- How a POST /api/scan-curriculum request can end: rejected by the multer
upload filter before the handler body runs (cb(new Error(...)) at line 39),
an early error response from the handler's guards (lines 657-671), or a
response computed by the core engine. -/
inductive RouteOutcome where
  | rejectedByUpload (msg : String)
  | errorResponse (status : Nat) (error : String)
  | engineResponse (r : ScanResponse)
deriving DecidableEq, Repr

/-- 4xx statuses are the client-error class of HTTP. -/
def isClientError (status : Nat) : Bool :=
  400 ≤ status && status < 500

/-- The /api/scan-curriculum route, src/server.js lines 654-676: the multer
middleware (upload.array, filtering every file through fileFilterAccepts)
runs first; the handler then rejects an empty file list with 400 and a
missing GROQ_API_KEY with 500, and only past those guards does the engine
run on the recognizer outcomes of the accepted files. -/
def scanCurriculumRoute (files : List UploadedFile) (apiKeySet : Bool)
    (recognize : UploadedFile → RecognizerOutcome) : RouteOutcome :=
  if ¬ (files.all fileFilterAccepts = true) then
    RouteOutcome.rejectedByUpload "Only JPG, PNG, and WEBP images are allowed"
  else if files.length = 0 then
    RouteOutcome.errorResponse 400 "No image(s) uploaded"
  else if ¬ (apiKeySet = true) then
    RouteOutcome.errorResponse 500 "GROQ_API_KEY not set"
  else
    RouteOutcome.engineResponse (scanCurriculum (files.map recognize))

/-- Claim C6: for every entity list and every sectionId, the per-unit validation
satisfies isGood = (issues is empty): warnings never make isGood false, any
issue makes it false, and the final assignment (line 196) overrides the
tentative isGood set by the cardinality-range check. -/
theorem per_unit_isGood_iff_no_issues (subjects : List Subject) (imageNumber : Nat) :
    (validateExtractionQuality subjects imageNumber).isGood =
      ((validateExtractionQuality subjects imageNumber).issues.length == 0) := rfl

/-- Claim C10: for every sectionId other than 1 and 2 the per-unit validator runs no
cardinality-range, per-year or anchor check, so every entity list (the empty
one included) yields isGood = true with empty issues and warnings. -/
theorem per_unit_other_sections_trivially_good (subjects : List Subject)
    (imageNumber : Nat) (h1 : imageNumber ≠ 1) (h2 : imageNumber ≠ 2) :
    validateExtractionQuality subjects imageNumber =
      { isGood := true, issues := [], warnings := [], subjectCount := subjects.length,
        missingCourses := [] } := by
  unfold validateExtractionQuality expectedCounts
  simp [h1, h2]

/-- Witness for C10 at sectionId 3 and the empty list. -/
theorem per_unit_other_sections_trivially_good_witness :
    validateExtractionQuality [] 3 =
      { isGood := true, issues := [], warnings := [], subjectCount := 0,
        missingCourses := [] } :=
  per_unit_other_sections_trivially_good [] 3 (by decide) (by decide)

/-- Claim C1 counterexample: at the deduplicated one-entity list whose code is
"cs101" (no images), the code leaves "CS 101" in missingCourses even though
the normalized key of "cs101" matches the normalized catalog key of
"CS 101": the diff of lines 283-287 compares codes verbatim, not by
normalized key, so the claimed normalized-key characterisation of
missingCodes is false. -/
theorem overall_missing_normalized_diff_false :
    ¬ (∀ code : String,
        code ∈ (validateOverallExtraction [⟨"cs101", "", 0, 0, 0, "", ""⟩] []).missingCourses ↔
          (code ∈ CURRICULUM_REFERENCE.map (fun kv => kv.1) ∧
           ¬ ((([(⟨"cs101", "", 0, 0, 0, "", ""⟩ : Subject)]).map
                (fun s => normalizeUpper s.subjectCode)).contains (normalizeUpper code) = true))) := by
  intro h
  have h1 := (h "CS 101").mp (by decide)
  exact h1.2 (by decide)

/-- Claim C1 amended: missingCodes equals the set of catalog codes not present
verbatim (exact string comparison, no normalization) among the deduplicated
entities' codes; this diff is unconditional, computed last, and overwrites
any partial missingCodes value such as the Summer anchor push. -/
theorem overall_missing_exact_diff (allSubjects : List Subject)
    (imageResults : List ImageResult) :
    (validateOverallExtraction allSubjects imageResults).missingCourses =
      (CURRICULUM_REFERENCE.map (fun kv => kv.1)).filter
        (fun code => !((allSubjects.map (fun s => s.subjectCode)).contains code)) := rfl

/-- Claim C2: for catalog size 54 and one- or two-image submissions,
count >= 54 gives tier excellent with success; 50 <= count < 54 gives tier
good with success and a warning stating the exact shortfall; 45 <= count < 50
gives tier moderate with success exactly when all submitted images passed
their per-unit validation or exactly one image was submitted and it passed,
and otherwise an issue states the shortfall and success is false.  (The
upload middleware caps a request at two images, so one or two per-image
validations are the reachable configurations.) -/
theorem overall_tier_bands (allSubjects : List Subject) (imageResults : List ImageResult)
    (hlen : imageResults.length = 1 ∨ imageResults.length = 2) :
    ((54 ≤ allSubjects.length →
        (validateOverallExtraction allSubjects imageResults).quality = "excellent" ∧
        (validateOverallExtraction allSubjects imageResults).success = true) ∧
     (50 ≤ allSubjects.length → allSubjects.length < 54 →
        (validateOverallExtraction allSubjects imageResults).quality = "good" ∧
        (validateOverallExtraction allSubjects imageResults).success = true ∧
        (toString (54 - allSubjects.length) ++ " subjects missing") ∈
          (validateOverallExtraction allSubjects imageResults).warnings) ∧
     (45 ≤ allSubjects.length → allSubjects.length < 50 →
        (validateOverallExtraction allSubjects imageResults).quality = "moderate" ∧
        ((validateOverallExtraction allSubjects imageResults).success = true ↔
          (imageResults.all imageResultGood = true ∨
           (imageResults.length = 1 ∧ imageGood imageResults 0 = true))) ∧
        ((validateOverallExtraction allSubjects imageResults).success = false →
          ("Only " ++ toString allSubjects.length ++ "/54 subjects extracted") ∈
            (validateOverallExtraction allSubjects imageResults).issues))) := by
  have hq : (validateOverallExtraction allSubjects imageResults).quality
      = (overallTier allSubjects.length imageResults).1 := rfl
  have hs : (validateOverallExtraction allSubjects imageResults).success
      = (overallTier allSubjects.length imageResults).2.1 := rfl
  have hw : (validateOverallExtraction allSubjects imageResults).warnings
      = (overallTier allSubjects.length imageResults).2.2.2 := rfl
  have hi : (validateOverallExtraction allSubjects imageResults).issues
      = (overallTier allSubjects.length imageResults).2.2.1
        ++ overallYearIssues allSubjects imageResults
        ++ overallSummerIssues allSubjects imageResults := rfl
  rw [hq, hs, hw, hi]
  refine ⟨?_, ?_, ?_⟩
  · intro h54
    constructor <;> simp [overallTier, h54]
  · intro h50 h54
    have h54n : ¬ 54 ≤ allSubjects.length := by omega
    refine ⟨?_, ?_, ?_⟩ <;> simp [overallTier, h54n, h50]
  · intro h45 h50
    have h54n : ¬ 54 ≤ allSubjects.length := by omega
    have h50n : ¬ 50 ≤ allSubjects.length := by omega
    rcases hlen with h1 | h2
    · obtain ⟨r0, rfl⟩ := List.length_eq_one.mp h1
      have hg0 : imageGood [r0] 0 = imageResultGood r0 := rfl
      have hg1 : imageGood [r0] 1 = false := rfl
      cases hg : imageResultGood r0 <;>
        refine ⟨?_, ?_, ?_⟩ <;>
          simp [overallTier, h54n, h50n, h45, hg0, hg1, hg]
    · obtain ⟨r0, r1, rfl⟩ := List.length_eq_two.mp h2
      have hg0 : imageGood [r0, r1] 0 = imageResultGood r0 := rfl
      have hg1 : imageGood [r0, r1] 1 = imageResultGood r1 := rfl
      cases hga : imageResultGood r0 <;> cases hgb : imageResultGood r1 <;>
        refine ⟨?_, ?_, ?_⟩ <;>
          simp [overallTier, h54n, h50n, h45, hg0, hg1, hga, hgb]

/-- Claim C3: with count < 45 the overall tier is poor with a severe-shortfall
issue and success false, except when exactly one image was submitted and it
individually passed, in which case the tier is re-set to moderate with
success true and a partial-scan warning (and no issue at all). -/
theorem overall_poor_band_single_image_override (allSubjects : List Subject)
    (imageResults : List ImageResult) (h45 : allSubjects.length < 45) :
    ((imageResults.length = 1 ∧ imageGood imageResults 0 = true →
        (validateOverallExtraction allSubjects imageResults).quality = "moderate" ∧
        (validateOverallExtraction allSubjects imageResults).success = true ∧
        ("Partial scan: " ++ toString allSubjects.length ++ " subjects extracted from 1 image") ∈
          (validateOverallExtraction allSubjects imageResults).warnings ∧
        (validateOverallExtraction allSubjects imageResults).issues = []) ∧
     (¬ (imageResults.length = 1 ∧ imageGood imageResults 0 = true) →
        (validateOverallExtraction allSubjects imageResults).quality = "poor" ∧
        (validateOverallExtraction allSubjects imageResults).success = false ∧
        ("Very poor extraction: only " ++ toString allSubjects.length ++ "/54 subjects") ∈
          (validateOverallExtraction allSubjects imageResults).issues)) := by
  have h54n : ¬ 54 ≤ allSubjects.length := by omega
  have h50n : ¬ 50 ≤ allSubjects.length := by omega
  have h45n : ¬ 45 ≤ allSubjects.length := by omega
  have hq : (validateOverallExtraction allSubjects imageResults).quality
      = (overallTier allSubjects.length imageResults).1 := rfl
  have hs : (validateOverallExtraction allSubjects imageResults).success
      = (overallTier allSubjects.length imageResults).2.1 := rfl
  have hw : (validateOverallExtraction allSubjects imageResults).warnings
      = (overallTier allSubjects.length imageResults).2.2.2 := rfl
  have hi : (validateOverallExtraction allSubjects imageResults).issues
      = (overallTier allSubjects.length imageResults).2.2.1
        ++ overallYearIssues allSubjects imageResults
        ++ overallSummerIssues allSubjects imageResults := rfl
  rw [hq, hs, hw, hi]
  constructor
  · rintro ⟨h1, hgood⟩
    obtain ⟨r0, rfl⟩ := List.length_eq_one.mp h1
    have hg0 : imageGood [r0] 0 = imageResultGood r0 := rfl
    rw [hg0] at hgood
    refine ⟨?_, ?_, ?_, ?_⟩ <;>
      simp [overallTier, overallYearIssues, overallSummerIssues, h54n, h50n, h45n, hg0, hgood]
  · intro hno
    by_cases h1 : imageResults.length = 1
    · obtain ⟨r0, rfl⟩ := List.length_eq_one.mp h1
      have hgood : imageResultGood r0 = false := by
        cases hg : imageResultGood r0
        · rfl
        · exact absurd ⟨rfl, hg⟩ hno
      have hg0 : imageGood [r0] 0 = imageResultGood r0 := rfl
      have hg1 : imageGood [r0] 1 = false := rfl
      refine ⟨?_, ?_, ?_⟩ <;>
        simp [overallTier, h54n, h50n, h45n, hg0, hg1, hgood]
    · have h1b : (imageResults.length == 1) = false := by
        simp [h1]
      refine ⟨?_, ?_, ?_⟩ <;>
        simp [overallTier, h54n, h50n, h45n, h1b]

example (n : Nat) : ("Only " ++ toString n ++ "/54 subjects extracted").data.head? = some 'O' := rfl
example (n : Nat) : ("Very poor extraction: only " ++ toString n ++ "/54 subjects").data.head? = some 'V' := rfl
example : ("1st Year" ++ " completely missing").data.head? = some '1' := rfl
example : ("Summer semester missing (CS 122)" : String).data.head? = some 'S' := rfl

/-- Two strings whose first characters differ are different. -/
theorem string_head_ne {s t : String} {a b : Char} (hs : s.data.head? = some a)
    (ht : t.data.head? = some b) (hab : a ≠ b) : s ≠ t := by
  intro h
  rw [h, ht] at hs
  exact hab (Option.some.inj hs).symm

/-- Appending the same suffix is injective on strings. -/
theorem string_append_right_cancel {x y z : String} (h : x ++ z = y ++ z) : x = y := by
  obtain ⟨xd⟩ := x
  obtain ⟨yd⟩ := y
  obtain ⟨zd⟩ := z
  have hd : xd ++ zd = yd ++ zd := congrArg String.data h
  exact congrArg String.mk (List.append_cancel_right hd)

/-- The tier block pushes at most one issue: none, the moderate-shortfall
message, or the very-poor message. -/
theorem overallTier_issues_sub (count : Nat) (i : List ImageResult) :
    (overallTier count i).2.2.1 = [] ∨
    (overallTier count i).2.2.1 = ["Only " ++ toString count ++ "/54 subjects extracted"] ∨
    (overallTier count i).2.2.1 = ["Very poor extraction: only " ++ toString count ++ "/54 subjects"] := by
  unfold overallTier
  repeat' split
  all_goals (simp; try (split <;> simp))

/-- The Summer check pushes at most the one Summer-missing message. -/
theorem overallSummerIssues_sub (allSubjects : List Subject) (imageResults : List ImageResult) :
    overallSummerIssues allSubjects imageResults = [] ∨
    overallSummerIssues allSubjects imageResults = ["Summer semester missing (CS 122)"] := by
  unfold overallSummerIssues
  by_cases h : (!(allSubjects.any fun s => s.subjectCode == "CS 122") && imageResults.length == 2) = true
  · right; simp [h]
  · left; simp [h]

/-- A year-completeness issue is present exactly for a two-image submission
whose deduplicated set has no entity of that year. -/
theorem mem_overallYearIssues (allSubjects : List Subject) (imageResults : List ImageResult)
    (y : String) (hy : y ∈ expectedYears) :
    ((y ++ " completely missing") ∈ overallYearIssues allSubjects imageResults) ↔
      (imageResults.length = 2 ∧ countByYear allSubjects y = 0) := by
  unfold overallYearIssues
  by_cases h2 : imageResults.length = 2
  · simp only [h2, beq_self_eq_true, if_true, List.mem_map, List.mem_filter]
    constructor
    · rintro ⟨yp, ⟨hyp, hc⟩, heq⟩
      have hyy : yp = y := string_append_right_cancel heq
      subst hyy
      refine ⟨by simp, by simpa using hc⟩
    · rintro ⟨-, hc⟩
      exact ⟨y, ⟨hy, by simp [hc]⟩, rfl⟩
  · have hb : (imageResults.length == 2) = false := by simp [h2]
    simp [hb, h2]

/-- The Summer-missing message is never one of the year-completeness
messages. -/
theorem msgSummer_not_mem_yearIssues (allSubjects : List Subject)
    (imageResults : List ImageResult) :
    "Summer semester missing (CS 122)" ∉ overallYearIssues allSubjects imageResults := by
  unfold overallYearIssues
  by_cases h2 : (imageResults.length == 2) = true
  · simp only [h2, if_true, List.mem_map, List.mem_filter]
    rintro ⟨yp, ⟨hyp, -⟩, heq⟩
    simp only [expectedYears, List.mem_cons, List.not_mem_nil, or_false] at hyp
    rcases hyp with h | h | h | h <;> subst h <;> exact absurd heq (by decide)
  · simp [h2]

/-- The Summer-missing issue is present exactly for a two-image submission
whose deduplicated set has no entity with code "CS 122". -/
theorem mem_overallSummerIssues (allSubjects : List Subject) (imageResults : List ImageResult) :
    ("Summer semester missing (CS 122)" ∈ overallSummerIssues allSubjects imageResults) ↔
      (imageResults.length = 2 ∧
       allSubjects.any (fun s => s.subjectCode == "CS 122") = false) := by
  unfold overallSummerIssues
  cases hA : allSubjects.any (fun s => s.subjectCode == "CS 122") <;>
    by_cases h2 : imageResults.length = 2 <;> simp [hA, h2]

/-- Claim C7: the per-year completely-missing issues and the Summer-anchor
issue of classifyOverall are appended if and only if exactly two images were
submitted: each year message appears exactly when the submission has two
images and that year is absent from the deduplicated set, and the Summer
message exactly when it has two images and no entity has code "CS 122". -/
theorem two_image_only_checks (allSubjects : List Subject) (imageResults : List ImageResult) :
    ((∀ year ∈ expectedYears,
        ((year ++ " completely missing") ∈ (validateOverallExtraction allSubjects imageResults).issues ↔
         (imageResults.length = 2 ∧ countByYear allSubjects year = 0))) ∧
     ("Summer semester missing (CS 122)" ∈ (validateOverallExtraction allSubjects imageResults).issues ↔
       (imageResults.length = 2 ∧
        allSubjects.any (fun s => s.subjectCode == "CS 122") = false))) := by
  have hi : (validateOverallExtraction allSubjects imageResults).issues
      = (overallTier allSubjects.length imageResults).2.2.1
        ++ overallYearIssues allSubjects imageResults
        ++ overallSummerIssues allSubjects imageResults := rfl
  rw [hi]
  constructor
  · intro year hyear
    have hy4 := hyear
    simp only [expectedYears, List.mem_cons, List.not_mem_nil, or_false] at hy4
    have hnotier : (year ++ " completely missing") ∉
        (overallTier allSubjects.length imageResults).2.2.1 := by
      rcases overallTier_issues_sub allSubjects.length imageResults with h | h | h <;> rw [h]
      · simp
      · simp only [List.mem_singleton]
        rcases hy4 with hy | hy | hy | hy <;> subst hy <;>
          exact string_head_ne rfl rfl (by decide)
      · simp only [List.mem_singleton]
        rcases hy4 with hy | hy | hy | hy <;> subst hy <;>
          exact string_head_ne rfl rfl (by decide)
    have hnosummer : (year ++ " completely missing") ∉
        overallSummerIssues allSubjects imageResults := by
      rcases overallSummerIssues_sub allSubjects imageResults with h | h <;> rw [h]
      · simp
      · simp only [List.mem_singleton]
        rcases hy4 with hy | hy | hy | hy <;> subst hy <;> exact (by decide)
    simp only [List.mem_append]
    constructor
    · rintro ((h | h) | h)
      · exact absurd h hnotier
      · exact (mem_overallYearIssues allSubjects imageResults year hyear).mp h
      · exact absurd h hnosummer
    · intro h
      exact Or.inl (Or.inr ((mem_overallYearIssues allSubjects imageResults year hyear).mpr h))
  · have hnotier : "Summer semester missing (CS 122)" ∉
        (overallTier allSubjects.length imageResults).2.2.1 := by
      rcases overallTier_issues_sub allSubjects.length imageResults with h | h | h <;> rw [h]
      · simp
      · simp only [List.mem_singleton]
        exact string_head_ne rfl rfl (by decide)
      · simp only [List.mem_singleton]
        exact string_head_ne rfl rfl (by decide)
    have hnoyear := msgSummer_not_mem_yearIssues allSubjects imageResults
    simp only [List.mem_append]
    constructor
    · rintro ((h | h) | h)
      · exact absurd h hnotier
      · exact absurd h hnoyear
      · exact (mem_overallSummerIssues allSubjects imageResults).mp h
    · intro h
      exact Or.inr ((mem_overallSummerIssues allSubjects imageResults).mpr h)

/-- Unfolding equation of dedupLoop on the empty list. -/
theorem dedupLoop_nil (seen : List String) : dedupLoop seen [] = [] := rfl

/-- Unfolding equation of dedupLoop on a cons. -/
theorem dedupLoop_cons (seen : List String) (s : Subject) (rest : List Subject) :
    dedupLoop seen (s :: rest) =
      if seen.contains (dedupKey s.subjectCode) then dedupLoop seen rest
      else s :: dedupLoop (dedupKey s.subjectCode :: seen) rest := rfl

/-- List.contains agrees with membership for strings. -/
theorem contains_iff_mem {l : List String} {a : String} : l.contains a = true ↔ a ∈ l :=
  List.elem_iff

/-- The dedup filter returns a subsequence of its input. -/
theorem dedupLoop_sublist (seen : List String) (l : List Subject) :
    (dedupLoop seen l).Sublist l := by
  induction l generalizing seen with
  | nil => exact List.Sublist.slnil
  | cons a rest ih =>
    rw [dedupLoop_cons]
    by_cases hk : seen.contains (dedupKey a.subjectCode) = true
    · rw [if_pos hk]
      exact List.Sublist.cons a (ih seen)
    · rw [if_neg hk]
      exact List.Sublist.cons₂ a (ih _)

/-- Every input key that is not already seen is represented in the output. -/
theorem dedupLoop_covers (seen : List String) (l : List Subject) :
    ∀ s ∈ l, (dedupKey s.subjectCode ∈ seen) ∨
      ∃ t ∈ dedupLoop seen l, dedupKey t.subjectCode = dedupKey s.subjectCode := by
  induction l generalizing seen with
  | nil => intro s hs; cases hs
  | cons a rest ih =>
    intro s hs
    rw [dedupLoop_cons]
    by_cases hk : seen.contains (dedupKey a.subjectCode) = true
    · rw [if_pos hk]
      rcases List.mem_cons.mp hs with rfl | hsr
      · left
        exact contains_iff_mem.mp hk
      · exact ih seen s hsr
    · rw [if_neg hk]
      rcases List.mem_cons.mp hs with rfl | hsr
      · right
        exact ⟨s, List.mem_cons_self s _, rfl⟩
      · rcases ih (dedupKey a.subjectCode :: seen) s hsr with h | ⟨t, ht, hkey⟩
        · rcases List.mem_cons.mp h with heq | hin
          · right
            exact ⟨a, List.mem_cons_self a _, heq.symm⟩
          · left; exact hin
        · right
          exact ⟨t, List.mem_cons_of_mem a ht, hkey⟩

/-- Every survivor has an unseen key and is the first occurrence of its key. -/
theorem dedupLoop_first (seen : List String) (l : List Subject) :
    ∀ t ∈ dedupLoop seen l,
      dedupKey t.subjectCode ∉ seen ∧
      l.find? (fun u => dedupKey u.subjectCode == dedupKey t.subjectCode) = some t := by
  induction l generalizing seen with
  | nil => intro t ht; cases ht
  | cons a rest ih =>
    intro t ht
    rw [dedupLoop_cons] at ht
    by_cases hk : seen.contains (dedupKey a.subjectCode) = true
    · rw [if_pos hk] at ht
      obtain ⟨hnotin, hfind⟩ := ih seen t ht
      refine ⟨hnotin, ?_⟩
      rw [List.find?_cons_of_neg, hfind]
      intro hbeq
      exact hnotin ((eq_of_beq hbeq) ▸ contains_iff_mem.mp hk)
    · rw [if_neg hk] at ht
      rcases List.mem_cons.mp ht with rfl | htr
      · refine ⟨fun hmem => hk (contains_iff_mem.mpr hmem), ?_⟩
        rw [List.find?_cons_of_pos]
        exact beq_self_eq_true _
      · obtain ⟨hnotin, hfind⟩ := ih _ t htr
        have hne : dedupKey t.subjectCode ≠ dedupKey a.subjectCode := by
          intro he
          exact hnotin (he ▸ List.mem_cons_self _ _)
        refine ⟨fun hmem => hnotin (List.mem_cons_of_mem _ hmem), ?_⟩
        rw [List.find?_cons_of_neg, hfind]
        intro hbeq
        exact hne (eq_of_beq hbeq).symm

/-- Survivors have pairwise distinct dedup keys. -/
theorem dedupLoop_keys_nodup (seen : List String) (l : List Subject) :
    ((dedupLoop seen l).map (fun t => dedupKey t.subjectCode)).Nodup := by
  induction l generalizing seen with
  | nil => exact List.nodup_nil
  | cons a rest ih =>
    rw [dedupLoop_cons]
    by_cases hk : seen.contains (dedupKey a.subjectCode) = true
    · rw [if_pos hk]; exact ih seen
    · rw [if_neg hk]
      rw [List.map_cons, List.nodup_cons]
      refine ⟨?_, ih _⟩
      intro hmem
      rw [List.mem_map] at hmem
      rcases hmem with ⟨t, ht, hkey⟩
      exact (dedupLoop_first _ _ t ht).1 (hkey ▸ List.mem_cons_self _ _)

/-- Claim C5: deduplication keys each entity by its code lowercased with all
whitespace stripped, keeps exactly the first occurrence of each key of the
flattened input (batch order, then encounter order) and discards every later
occurrence of the same key, survivors appear in first-occurrence order (as a
subsequence of the input), and the output length never exceeds the total
input length. -/
theorem dedupe_first_wins (batches : List (List Subject)) :
    ((uniqueSubjects batches.flatten).Sublist batches.flatten ∧
     (uniqueSubjects batches.flatten).length ≤ batches.flatten.length ∧
     (∀ s ∈ batches.flatten, ∃ t ∈ uniqueSubjects batches.flatten,
        dedupKey t.subjectCode = dedupKey s.subjectCode) ∧
     (∀ t ∈ uniqueSubjects batches.flatten,
        batches.flatten.find? (fun u => dedupKey u.subjectCode == dedupKey t.subjectCode)
          = some t) ∧
     ((uniqueSubjects batches.flatten).map (fun t => dedupKey t.subjectCode)).Nodup) := by
  refine ⟨dedupLoop_sublist [] _, (dedupLoop_sublist [] _).length_le, ?_, ?_,
    dedupLoop_keys_nodup [] _⟩
  · intro s hs
    rcases dedupLoop_covers [] batches.flatten s hs with h | h
    · cases h
    · exact h
  · intro t ht
    exact (dedupLoop_first [] _ t ht).2

/-- Witness for C5 at the spec example: of {CS 101, A} and {cs101, B} the
first occurrence (name A) is the one kept for that key. -/
theorem dedupe_first_wins_witness :
    ([[⟨"CS 101", "A", 0, 0, 0, "", ""⟩], [⟨"cs101", "B", 0, 0, 0, "", ""⟩]] :
        List (List Subject)).flatten.find?
      (fun u => dedupKey u.subjectCode ==
        dedupKey (⟨"CS 101", "A", 0, 0, 0, "", ""⟩ : Subject).subjectCode) =
      some ⟨"CS 101", "A", 0, 0, 0, "", ""⟩ :=
  (dedupe_first_wins [[⟨"CS 101", "A", 0, 0, 0, "", ""⟩], [⟨"cs101", "B", 0, 0, 0, "", ""⟩]]).2.2.2.1
    ⟨"CS 101", "A", 0, 0, 0, "", ""⟩ (by decide)

/-- Uppercasing fixes whitespace characters. -/
theorem toUpper_whitespace {c : Char} (h : c.isWhitespace = true) : c.toUpper = c := by
  simp only [Char.isWhitespace, Bool.or_eq_true, decide_eq_true_eq] at h
  rcases h with ((h | h) | h) | h <;> subst h <;> decide

/-- Dropping leading whitespace does not change the uppercased
whitespace-free residue. -/
theorem filter_map_dropWhile (l : List Char) :
    (((l.dropWhile Char.isWhitespace).map Char.toUpper).filter (fun c => !c.isWhitespace)) =
      ((l.map Char.toUpper).filter (fun c => !c.isWhitespace)) := by
  induction l with
  | nil => rfl
  | cons c t ih =>
    by_cases hw : c.isWhitespace = true
    · rw [List.dropWhile_cons_of_pos hw, ih, List.map_cons, List.filter_cons]
      have : ((!(Char.toUpper c).isWhitespace) = true) = False := by
        rw [toUpper_whitespace hw]
        simp [hw]
      simp [toUpper_whitespace hw, hw]
    · rw [List.dropWhile_cons_of_neg (by simpa using hw)]

/-- The trim of src/server.js line 303 is absorbed by the whitespace-removing
normalization of line 306. -/
theorem normalizeUpper_jsTrim (s : String) : normalizeUpper (jsTrim s) = normalizeUpper s := by
  unfold normalizeUpper jsTrim
  apply congrArg String.mk
  show ((((((s.data.dropWhile Char.isWhitespace).reverse.dropWhile Char.isWhitespace).reverse)).map Char.toUpper).filter (fun c => !c.isWhitespace)) = _
  rw [List.map_reverse, List.filter_reverse, filter_map_dropWhile,
      ← List.filter_reverse, ← List.map_reverse, List.reverse_reverse,
      filter_map_dropWhile]

/-- The normalized catalog keys are pairwise distinct, so the refLookup index
has one entry per catalog row. -/
theorem normKeysNodup :
    (CURRICULUM_REFERENCE.map (fun kv => normalizeUpper kv.1)).Nodup := by decide

/-- On a list with distinct normalized keys, find? by normalized key returns
the member with that key. -/
theorem find?_norm_eq {l : List (String × RefEntry)} {k : String} {r : RefEntry}
    (hnd : (l.map (fun kv => normalizeUpper kv.1)).Nodup) (hmem : (k, r) ∈ l) :
    l.find? (fun kv => normalizeUpper kv.1 == normalizeUpper k) = some (k, r) := by
  induction l with
  | nil => cases hmem
  | cons hd t ih =>
    rw [List.map_cons, List.nodup_cons] at hnd
    rcases List.mem_cons.mp hmem with heq | hmem
    · subst heq
      rw [List.find?_cons_of_pos]
      exact beq_self_eq_true _
    · have hne : ¬ (normalizeUpper hd.1 == normalizeUpper k) = true := by
        intro hbeq
        apply hnd.1
        rw [List.mem_map]
        exact ⟨(k, r), hmem, (eq_of_beq hbeq).symm⟩
      rw [List.find?_cons_of_neg]
      · exact ih hnd.2 hmem
      · exact hne

/-- A code whose normalization matches a catalog key looks up exactly that
catalog entry. -/
theorem refLookup_eq_of_mem {k : String} {r : RefEntry}
    (hmem : (k, r) ∈ CURRICULUM_REFERENCE) (c : String)
    (hnorm : normalizeUpper c = normalizeUpper k) :
    refLookup (normalizeUpper c) = some (k, r) := by
  unfold refLookup
  rw [hnorm]
  apply find?_norm_eq
  · rw [List.map_reverse]
    exact List.nodup_reverse.mpr normKeysNodup
  · exact List.mem_reverse.mpr hmem

/-- A code whose normalization matches no catalog key looks up nothing. -/
theorem refLookup_eq_none (c : String)
    (h : ∀ k r, (k, r) ∈ CURRICULUM_REFERENCE → normalizeUpper c ≠ normalizeUpper k) :
    refLookup (normalizeUpper c) = none := by
  unfold refLookup
  rw [List.find?_eq_none]
  intro kv hkv hbeq
  exact h kv.1 kv.2 (List.mem_reverse.mp hkv) (eq_of_beq hbeq).symm

/-- Claim C4: hydration is total and order-preserving (one output per input,
same length); an input whose normalized code (uppercased, whitespace
removed) matches a catalog key is replaced by the catalog's canonical code,
name, lecture/lab/total units, year level and semester; an input matching no
catalog key is emitted unchanged, so no entity is ever dropped. -/
theorem hydrate_totality_and_fixpoint (subjects : List Subject) :
    ((hydrateSubjectsFromReference subjects).length = subjects.length ∧
     ∀ i s, subjects.get? i = some s →
       ((∀ k r, (k, r) ∈ CURRICULUM_REFERENCE →
           normalizeUpper s.subjectCode = normalizeUpper k →
           (hydrateSubjectsFromReference subjects).get? i = some
             { subjectCode := k, subjectName := r.name, lecUnits := r.lecUnits,
               labUnits := r.labUnits, units := r.units, yearLevel := r.yearLevel,
               semester := r.semester }) ∧
        ((∀ k r, (k, r) ∈ CURRICULUM_REFERENCE →
           normalizeUpper s.subjectCode ≠ normalizeUpper k) →
           (hydrateSubjectsFromReference subjects).get? i = some s))) := by
  constructor
  · exact List.length_map subjects _
  · intro i s hget
    have hmap : (hydrateSubjectsFromReference subjects).get? i =
        (subjects.get? i).map (fun subject =>
          match refLookup (normalizeUpper (jsTrim subject.subjectCode)) with
          | some kv =>
              { subjectCode := kv.1, subjectName := kv.2.name, lecUnits := kv.2.lecUnits,
                labUnits := kv.2.labUnits, units := kv.2.units, yearLevel := kv.2.yearLevel,
                semester := kv.2.semester }
          | none => subject) := List.get?_map _ _ _
    constructor
    · intro k r hkr hnorm
      rw [hmap, hget]
      have hlook : refLookup (normalizeUpper (jsTrim s.subjectCode)) = some (k, r) := by
        rw [normalizeUpper_jsTrim]
        exact refLookup_eq_of_mem hkr s.subjectCode hnorm
      simp only [Option.map_some']
      rw [hlook]
    · intro hnone
      rw [hmap, hget]
      have hlook : refLookup (normalizeUpper (jsTrim s.subjectCode)) = none := by
        rw [normalizeUpper_jsTrim]
        exact refLookup_eq_none s.subjectCode hnone
      simp only [Option.map_some']
      rw [hlook]

/-- Witness for C4: "cs101" hydrates to the canonical CS 101 entry. -/
theorem hydrate_totality_and_fixpoint_witness :
    (hydrateSubjectsFromReference [⟨"cs101", "B", 1, 2, 3, "x", "y"⟩]).get? 0 =
      some ⟨"CS 101", "Introduction to Computing", 3, 0, 3, "1st Year", "1st Semester"⟩ :=
  ((hydrate_totality_and_fixpoint [⟨"cs101", "B", 1, 2, 3, "x", "y"⟩]).2 0
      ⟨"cs101", "B", 1, 2, 3, "x", "y"⟩ rfl).1
    "CS 101" ⟨"Introduction to Computing", 3, 0, 3, "1st Year", "1st Semester"⟩
    (by decide) (by decide)

/-- Claim C8: a failure while processing one image (recognizer error or
unparseable response) does not abort the batch: the orchestrator still
produces one result per image, records the failing image's validation as
isGood = false with the failure message as its sole issue and zero subjects,
and processes every other image as usual. -/
theorem per_image_failure_isolated (outcomes : List RecognizerOutcome) (i : Nat) (msg : String)
    (h : outcomes.get? i = some (RecognizerOutcome.failure msg)) :
    ((scanCurriculum outcomes).imageResults.length = outcomes.length ∧
     (scanCurriculum outcomes).imageResults.get? i = some
       { imageNumber := i + 1, subjects := [],
         validation := some
           { isGood := false, issues := [msg], warnings := [], subjectCount := 0,
             missingCourses := [] } } ∧
     (∀ j o, outcomes.get? j = some o →
       (scanCurriculum outcomes).imageResults.get? j = some (processImage j o))) := by
  have hres : (scanCurriculum outcomes).imageResults
      = outcomes.enum.map (fun p => processImage p.1 p.2) := rfl
  have hget : ∀ j, (scanCurriculum outcomes).imageResults.get? j
      = (outcomes.get? j).map (fun o => processImage j o) := by
    intro j
    rw [hres, List.get?_map, List.get?_enum]
    cases outcomes.get? j <;> rfl
  refine ⟨?_, ?_, ?_⟩
  · rw [hres, List.length_map, List.enum_length]
  · rw [hget i, h]; rfl
  · intro j o hj
    rw [hget j, hj]; rfl

/-- Witness for C8: a two-image batch whose first image fails. -/
theorem per_image_failure_isolated_witness :
    ((scanCurriculum [RecognizerOutcome.failure "boom",
        RecognizerOutcome.parsedNoSubjects]).imageResults.length = 2 ∧
     (scanCurriculum [RecognizerOutcome.failure "boom",
        RecognizerOutcome.parsedNoSubjects]).imageResults.get? 0 = some
       { imageNumber := 1, subjects := [],
         validation := some
           { isGood := false, issues := ["boom"], warnings := [], subjectCount := 0,
             missingCourses := [] } } ∧
     (scanCurriculum [RecognizerOutcome.failure "boom",
        RecognizerOutcome.parsedNoSubjects]).imageResults.get? 1 =
       some (processImage 1 RecognizerOutcome.parsedNoSubjects)) :=
  ⟨(per_image_failure_isolated
      [RecognizerOutcome.failure "boom", RecognizerOutcome.parsedNoSubjects] 0 "boom" rfl).1,
   (per_image_failure_isolated
      [RecognizerOutcome.failure "boom", RecognizerOutcome.parsedNoSubjects] 0 "boom" rfl).2.1,
   (per_image_failure_isolated
      [RecognizerOutcome.failure "boom", RecognizerOutcome.parsedNoSubjects] 0 "boom" rfl).2.2
     1 RecognizerOutcome.parsedNoSubjects rfl⟩

/-- Claim C9 counterexample: a request with a valid file but no API credential is
answered with HTTP 500, which is not in the client-error (4xx) class, so the
claim that every input error is surfaced as a client-side error is false. -/
theorem input_error_client_side_false :
    (scanCurriculumRoute [⟨"image/png"⟩] false (fun _ => RecognizerOutcome.parsedNoSubjects)
        = RouteOutcome.errorResponse 500 "GROQ_API_KEY not set") ∧
    isClientError 500 = false := ⟨rfl, rfl⟩

/-- Claim C9 amended: every input error (disallowed file type, no uploaded file,
missing credential) is rejected before the core engine runs: a disallowed
type is rejected by the upload filter, an empty file list gets HTTP 400
(client error), a missing credential gets HTTP 500 (server error), and in
all three situations the engine response is never produced. -/
theorem input_errors_rejected_before_engine (files : List UploadedFile) (apiKeySet : Bool)
    (recognize : UploadedFile → RecognizerOutcome) :
    (((∃ f, f ∈ files ∧ fileFilterAccepts f = false) →
        scanCurriculumRoute files apiKeySet recognize =
          RouteOutcome.rejectedByUpload "Only JPG, PNG, and WEBP images are allowed") ∧
     (files = [] →
        scanCurriculumRoute files apiKeySet recognize =
          RouteOutcome.errorResponse 400 "No image(s) uploaded") ∧
     (files.all fileFilterAccepts = true → files ≠ [] → apiKeySet = false →
        scanCurriculumRoute files apiKeySet recognize =
          RouteOutcome.errorResponse 500 "GROQ_API_KEY not set") ∧
     (((∃ f, f ∈ files ∧ fileFilterAccepts f = false) ∨ files = [] ∨ apiKeySet = false) →
        ∀ r, scanCurriculumRoute files apiKeySet recognize ≠
          RouteOutcome.engineResponse r)) := by
  have h1 : (∃ f, f ∈ files ∧ fileFilterAccepts f = false) →
      scanCurriculumRoute files apiKeySet recognize =
        RouteOutcome.rejectedByUpload "Only JPG, PNG, and WEBP images are allowed" := by
    intro hbad
    unfold scanCurriculumRoute
    have hnall : ¬ (files.all fileFilterAccepts = true) := by
      rcases hbad with ⟨f, hf, hno⟩
      intro hall
      rw [List.all_eq_true] at hall
      exact absurd (hall f hf) (by simp [hno])
    rw [if_pos hnall]
  have h2 : files = [] →
      scanCurriculumRoute files apiKeySet recognize =
        RouteOutcome.errorResponse 400 "No image(s) uploaded" := by
    rintro rfl
    rfl
  have h3 : files.all fileFilterAccepts = true → files ≠ [] → apiKeySet = false →
      scanCurriculumRoute files apiKeySet recognize =
        RouteOutcome.errorResponse 500 "GROQ_API_KEY not set" := by
    intro hall hne hkey
    unfold scanCurriculumRoute
    rw [if_neg (by simp [hall])]
    rw [if_neg (by simpa using fun hz => hne (List.length_eq_zero.mp hz))]
    rw [if_pos (by simp [hkey])]
  refine ⟨h1, h2, h3, ?_⟩
  rintro (hbad | hemp | hkey) r
  · rw [h1 hbad]; simp
  · rw [h2 hemp]; simp
  · by_cases hbad : ∃ f, f ∈ files ∧ fileFilterAccepts f = false
    · rw [h1 hbad]; simp
    · by_cases hemp : files = []
      · rw [h2 hemp]; simp
      · have hall : files.all fileFilterAccepts = true := by
          rw [List.all_eq_true]
          intro f hf
          by_contra hno
          exact hbad ⟨f, hf, by simpa using hno⟩
        rw [h3 hall hemp hkey]; simp

/-- Witness for C2 at 54 entities and one good image. -/
theorem overall_tier_bands_witness :
    (validateOverallExtraction
        (List.replicate 54 ⟨"CS 101", "", 0, 0, 0, "1st Year", "1st Semester"⟩)
        [⟨1, [], some ⟨true, [], [], 0, []⟩⟩]).quality = "excellent" ∧
    (validateOverallExtraction
        (List.replicate 54 ⟨"CS 101", "", 0, 0, 0, "1st Year", "1st Semester"⟩)
        [⟨1, [], some ⟨true, [], [], 0, []⟩⟩]).success = true :=
  (overall_tier_bands
      (List.replicate 54 ⟨"CS 101", "", 0, 0, 0, "1st Year", "1st Semester"⟩)
      [⟨1, [], some ⟨true, [], [], 0, []⟩⟩] (Or.inl rfl)).1 (by decide)

/-- Witness for C3 at 20 entities and one good image. -/
theorem overall_poor_band_single_image_override_witness :
    (validateOverallExtraction
        (List.replicate 20 ⟨"CS 101", "", 0, 0, 0, "1st Year", "1st Semester"⟩)
        [⟨1, [], some ⟨true, [], [], 0, []⟩⟩]).quality = "moderate" ∧
    (validateOverallExtraction
        (List.replicate 20 ⟨"CS 101", "", 0, 0, 0, "1st Year", "1st Semester"⟩)
        [⟨1, [], some ⟨true, [], [], 0, []⟩⟩]).success = true ∧
    ("Partial scan: " ++
        toString (List.replicate 20
          (⟨"CS 101", "", 0, 0, 0, "1st Year", "1st Semester"⟩ : Subject)).length ++
        " subjects extracted from 1 image") ∈
      (validateOverallExtraction
        (List.replicate 20 ⟨"CS 101", "", 0, 0, 0, "1st Year", "1st Semester"⟩)
        [⟨1, [], some ⟨true, [], [], 0, []⟩⟩]).warnings ∧
    (validateOverallExtraction
        (List.replicate 20 ⟨"CS 101", "", 0, 0, 0, "1st Year", "1st Semester"⟩)
        [⟨1, [], some ⟨true, [], [], 0, []⟩⟩]).issues = [] :=
  (overall_poor_band_single_image_override
      (List.replicate 20 ⟨"CS 101", "", 0, 0, 0, "1st Year", "1st Semester"⟩)
      [⟨1, [], some ⟨true, [], [], 0, []⟩⟩] (by decide)).1 ⟨rfl, rfl⟩

/-- Witness for C7: a two-image submission with an empty deduplicated set
does produce the "4th Year completely missing" issue. -/
theorem two_image_only_checks_witness :
    ("4th Year" ++ " completely missing") ∈
      (validateOverallExtraction [] [⟨1, [], none⟩, ⟨2, [], none⟩]).issues :=
  ((two_image_only_checks [] [⟨1, [], none⟩, ⟨2, [], none⟩]).1 "4th Year"
      (by decide)).mpr ⟨rfl, rfl⟩

/-- Witness for C9 (amended) at an empty upload with the credential set. -/
theorem input_errors_rejected_before_engine_witness :
    scanCurriculumRoute [] true (fun _ => RecognizerOutcome.parsedNoSubjects) =
      RouteOutcome.errorResponse 400 "No image(s) uploaded" :=
  (input_errors_rejected_before_engine [] true
      (fun _ => RecognizerOutcome.parsedNoSubjects)).2.1 rfl
